import Mathlib

/-!
# Verification of the arco-pricing engine (`src/arco_prices.py`)

Shallow embedding of the pricing/simulation engine: tiered-cost evaluation
(`calculate_tiered_cost`), the funnel/cost simulator (`run_simulation`), and
the qualification-vs-booking grid sweep that builds the heatmap matrices.
Python floats are modelled as exact rationals `ℚ`; a pandas tier DataFrame is
modelled as a list of rows (plus, where mutation is at issue, per-column dtype
flags, since `astype(float)` column re-assignment changes the caller's frame).
-/

namespace ArcoPrices

/-- One row of a tier table: columns `Mínimo`, `Máximo`, `Valor`. -/
structure Tier where
  min : ℚ
  max : ℚ
  price : ℚ
deriving DecidableEq, Repr

/-- Models `tiers_df.sort_values(by="Mínimo")`: sort rows ascending by `Mínimo`. -/
def sortTiers (ts : List Tier) : List Tier :=
  ts.insertionSort (fun a b => a.min ≤ b.min)

/-- One iteration of the accumulation loop in `calculate_tiered_cost`:
`if quantity > min_val: total_cost += (min(quantity, max_val) - min_val) * price`. -/
def tierContribution (q : ℚ) (t : Tier) : ℚ :=
  if t.min < q then (min q t.max - t.min) * t.price else 0

/-- The whole accumulation loop over the (sorted) rows. -/
def tieredLoop (q : ℚ) : List Tier → ℚ
  | [] => 0
  | t :: rest => tierContribution q t + tieredLoop q rest

/-- Embeds `calculate_tiered_cost(quantity, tiers_df)` from `src/arco_prices.py`:
early-returns `0` for `quantity == 0`, otherwise sorts the rows ascending by
`Mínimo` and accumulates `(min(quantity, max) - min) * price` over every row
with `quantity > min`. -/
def calculate_tiered_cost (quantity : ℚ) (tiers : List Tier) : ℚ :=
  if quantity = 0 then 0 else tieredLoop quantity (sortTiers tiers)

/-- The `rates` dict: `response`, `qualification`, `booking`. -/
structure FunnelRates where
  response : ℚ
  qualification : ℚ
  booking : ℚ
deriving DecidableEq, Repr

/-- The `pricing_tables` dict. The `no_reply` table is only ever read as
`pricing_tables["no_reply"].iloc[0]["Valor"]`, so it is modelled by that
single flat unit price. -/
structure PricingTables where
  no_reply : ℚ
  leads : List Tier
  qualified : List Tier
  booked : List Tier
deriving DecidableEq, Repr

/-- The result dict returned by `run_simulation`. -/
structure SimulationResult where
  total_leads : ℚ
  num_no_replies : ℚ
  num_replies : ℚ
  num_qualified : ℚ
  num_booked : ℚ
  cost_no_reply : ℚ
  cost_replies : ℚ
  cost_qualified : ℚ
  cost_booked : ℚ
  calculated_cost : ℚ
  total_cost : ℚ
  cpl : ℚ
  cpa : ℚ
deriving DecidableEq, Repr

/-- Embeds `run_simulation(total_leads, rates, pricing_tables, minimum_billing)` from
`src/arco_prices.py`. -/
def run_simulation (total_leads : ℚ) (rates : FunnelRates)
    (pricing_tables : PricingTables) (minimum_billing : ℚ) : SimulationResult :=
  let num_replies := total_leads * rates.response
  let num_no_replies := total_leads - num_replies
  let num_qualified := num_replies * rates.qualification
  let num_booked := num_qualified * rates.booking
  let cost_no_reply := num_no_replies * pricing_tables.no_reply
  let cost_replies := calculate_tiered_cost num_replies pricing_tables.leads
  let cost_qualified := calculate_tiered_cost num_qualified pricing_tables.qualified
  let cost_booked := calculate_tiered_cost num_booked pricing_tables.booked
  let calculated_cost := cost_no_reply + cost_replies + cost_qualified + cost_booked
  let total_cost := max calculated_cost minimum_billing
  let cpl := if total_leads > 0 then total_cost / total_leads else 0
  let cpa := if num_booked > 0 then total_cost / num_booked else 0
  { total_leads := total_leads
    num_no_replies := num_no_replies
    num_replies := num_replies
    num_qualified := num_qualified
    num_booked := num_booked
    cost_no_reply := cost_no_reply
    cost_replies := cost_replies
    cost_qualified := cost_qualified
    cost_booked := cost_booked
    calculated_cost := calculated_cost
    total_cost := total_cost
    cpl := cpl
    cpa := cpa }

/-- The spec's description of the algorithm, taken at its word: after sorting
ascending by `min`, sum `(min(quantity, tier.max) - tier.min) * tier.unit_price`
over exactly the tiers whose `min` is strictly below the quantity. -/
def specTieredCost (q : ℚ) (tiers : List Tier) : ℚ :=
  (((sortTiers tiers).filter (fun t => decide (t.min < q))).map
    (fun t => (min q t.max - t.min) * t.price)).sum

/-- Qualification-rate axis of the heatmap:
`[i / 100.0 for i in range(0, 36, 5)]`, i.e. 0% to 35% step 5%. -/
def qual_rates_heatmap : List ℚ :=
  (List.range' 0 8 5).map (fun i => (i : ℚ) / 100)

/-- Booking-rate axis of the heatmap:
`[i / 100.0 for i in range(0, 51, 5)]`, i.e. 0% to 50% step 5%. -/
def booking_rates_heatmap : List ℚ :=
  (List.range' 0 11 5).map (fun i => (i : ℚ) / 100)

/-- The heatmap loop body's rate bundle:
`temp_rates = rates.copy(); temp_rates["qualification"] = qual_rate;
temp_rates["booking"] = book_rate`. -/
def tempRates (rates : FunnelRates) (qual_rate book_rate : ℚ) : FunnelRates :=
  { rates with qualification := qual_rate, booking := book_rate }

/-- The `cost_matrix` built by the nested heatmap loop: one row per
qualification rate (ascending), one column per booking rate (ascending), each
cell the `total_cost` of `run_simulation` at the target volume with the two
rates substituted into a copy of the base rates. -/
def cost_matrix (target_total_leads : ℚ) (rates : FunnelRates)
    (pricing_tables : PricingTables) (minimum_billing : ℚ) : List (List ℚ) :=
  qual_rates_heatmap.map fun qual_rate =>
    booking_rates_heatmap.map fun book_rate =>
      (run_simulation target_total_leads (tempRates rates qual_rate book_rate)
          pricing_tables minimum_billing).total_cost

/-- The `cpa_matrix` of the heatmap loop: each cell is
`sim_result["cpa"] if sim_result["cpa"] > 0 else 0`. -/
def cpa_matrix (target_total_leads : ℚ) (rates : FunnelRates)
    (pricing_tables : PricingTables) (minimum_billing : ℚ) : List (List ℚ) :=
  qual_rates_heatmap.map fun qual_rate =>
    booking_rates_heatmap.map fun book_rate =>
      let s := run_simulation target_total_leads (tempRates rates qual_rate book_rate)
          pricing_tables minimum_billing
      if s.cpa > 0 then s.cpa else 0

/-- The `meetings_matrix` of the heatmap loop: each cell is `num_booked`. -/
def meetings_matrix (target_total_leads : ℚ) (rates : FunnelRates)
    (pricing_tables : PricingTables) (minimum_billing : ℚ) : List (List ℚ) :=
  qual_rates_heatmap.map fun qual_rate =>
    booking_rates_heatmap.map fun book_rate =>
      (run_simulation target_total_leads (tempRates rates qual_rate book_rate)
          pricing_tables minimum_billing).num_booked

/-- A tier DataFrame as the caller sees it: the rows plus one dtype flag per
column (`true` = float64). `pd.DataFrame` infers int64 for integer literals,
and `astype(float)` re-assignment changes the flag (the numeric values of this
program fit floats exactly, so the row values are unchanged). -/
structure TiersDf where
  rows : List Tier
  minIsFloat : Bool
  maxIsFloat : Bool
  valIsFloat : Bool
deriving DecidableEq, Repr

/-- The three column re-assignments
`tiers_df["Mínimo"] = tiers_df["Mínimo"].astype(float)` (and likewise
`"Máximo"`, `"Valor"`): they write float-cast columns back into the caller's
frame, leaving the numeric values as they were. -/
def astypeFloatCols (df : TiersDf) : TiersDf :=
  { df with minIsFloat := true, maxIsFloat := true, valIsFloat := true }

/-- Function `calculate_tiered_cost` at DataFrame level: returns the cost together with
the state the caller's DataFrame is left in. For `quantity == 0` the function
returns before touching the frame; otherwise the `astype` assignments mutate
it in place, while `sort_values(...).reset_index(...)` only rebinds the local
name and leaves the caller's frame alone. -/
def calculate_tiered_cost_df (quantity : ℚ) (tiers_df : TiersDf) : ℚ × TiersDf :=
  if quantity = 0 then (0, tiers_df)
  else
    let casted := astypeFloatCols tiers_df
    (tieredLoop quantity (sortTiers casted.rows), casted)

/-- The `pricing_tables` dict at DataFrame level. `no_reply` is only read
(`iloc[0]["Valor"]`), never written, so its flat price suffices. -/
structure PricingTablesDf where
  no_reply : ℚ
  leads : TiersDf
  qualified : TiersDf
  booked : TiersDf
deriving DecidableEq, Repr

/-- Forgets the dtype flags, keeping the numeric table contents. -/
def plainTables (tables : PricingTablesDf) : PricingTables :=
  { no_reply := tables.no_reply
    leads := tables.leads.rows
    qualified := tables.qualified.rows
    booked := tables.booked.rows }

/-- Function `run_simulation` at DataFrame level: returns the result together with the
state the caller's `pricing_tables` dict is left in after the three
`calculate_tiered_cost` calls ran on the caller's DataFrames. -/
def run_simulation_df (total_leads : ℚ) (rates : FunnelRates)
    (pricing_tables : PricingTablesDf) (minimum_billing : ℚ) :
    SimulationResult × PricingTablesDf :=
  let num_replies := total_leads * rates.response
  let num_no_replies := total_leads - num_replies
  let num_qualified := num_replies * rates.qualification
  let num_booked := num_qualified * rates.booking
  let cost_no_reply := num_no_replies * pricing_tables.no_reply
  let repliesRes := calculate_tiered_cost_df num_replies pricing_tables.leads
  let qualifiedRes := calculate_tiered_cost_df num_qualified pricing_tables.qualified
  let bookedRes := calculate_tiered_cost_df num_booked pricing_tables.booked
  let calculated_cost := cost_no_reply + repliesRes.1 + qualifiedRes.1 + bookedRes.1
  let total_cost := max calculated_cost minimum_billing
  let cpl := if total_leads > 0 then total_cost / total_leads else 0
  let cpa := if num_booked > 0 then total_cost / num_booked else 0
  ({ total_leads := total_leads
     num_no_replies := num_no_replies
     num_replies := num_replies
     num_qualified := num_qualified
     num_booked := num_booked
     cost_no_reply := cost_no_reply
     cost_replies := repliesRes.1
     cost_qualified := qualifiedRes.1
     cost_booked := bookedRes.1
     calculated_cost := calculated_cost
     total_cost := total_cost
     cpl := cpl
     cpa := cpa },
   { pricing_tables with
     leads := repliesRes.2
     qualified := qualifiedRes.2
     booked := bookedRes.2 })

theorem tieredLoop_eq_sum (q : ℚ) (l : List Tier) :
    tieredLoop q l = (l.map (tierContribution q)).sum := by
  induction l with
  | nil => rfl
  | cons t rest ih => simp [tieredLoop, ih]

theorem tieredLoop_eq_filter_sum (q : ℚ) (l : List Tier) :
    tieredLoop q l
      = ((l.filter (fun t => decide (t.min < q))).map
          (fun t => (min q t.max - t.min) * t.price)).sum := by
  induction l with
  | nil => rfl
  | cons t rest ih =>
    by_cases h : t.min < q
    · simp [tieredLoop, tierContribution, List.filter_cons, h, ih]
    · simp [tieredLoop, tierContribution, List.filter_cons, h, ih]

theorem sortTiers_perm (ts : List Tier) : (sortTiers ts).Perm ts :=
  List.perm_insertionSort _ ts

/-- The accumulated total is permutation-invariant, so sorting does not change
it: for nonzero quantity the result is the sum of the per-tier contributions
over the original, unsorted rows. -/
theorem calculate_tiered_cost_eq_sum (q : ℚ) (ts : List Tier) (hq : q ≠ 0) :
    calculate_tiered_cost q ts = (ts.map (tierContribution q)).sum := by
  rw [calculate_tiered_cost, if_neg hq, tieredLoop_eq_sum]
  exact List.Perm.sum_eq (List.Perm.map _ (sortTiers_perm ts))

end ArcoPrices

namespace ArcoPrices

/-- C1: for every quantity `q > 0` and every table, `calculate_tiered_cost`
returns the sum, over the tiers (sorted ascending by `min`) whose `min` is
strictly below `q`, of `(min(q, tier.max) - tier.min) * tier.unit_price`; and
on the table `[0,500)@5.00, [500,1500)@3.80` quantity `600` costs `2880`. -/
theorem tiered_cost_matches_spec_formula (q : ℚ) (tiers : List Tier) (hq : 0 < q) :
    calculate_tiered_cost q tiers = specTieredCost q tiers ∧
    calculate_tiered_cost 600 [⟨0, 500, 5⟩, ⟨500, 1500, 19/5⟩] = 2880 := by
  constructor
  · rw [calculate_tiered_cost, if_neg (ne_of_gt hq), tieredLoop_eq_filter_sum]
    rfl
  · norm_num [calculate_tiered_cost, sortTiers, tieredLoop, tierContribution,
      List.insertionSort, List.orderedInsert, min_def]

/-- Witness for C1 at `q = 600` on the two-tier table from scenario A. -/
theorem tiered_cost_matches_spec_formula_witness :
    calculate_tiered_cost 600 [⟨0, 500, 5⟩, ⟨500, 1500, 19/5⟩]
        = specTieredCost 600 [⟨0, 500, 5⟩, ⟨500, 1500, 19/5⟩] ∧
    calculate_tiered_cost 600 [⟨0, 500, 5⟩, ⟨500, 1500, 19/5⟩] = 2880 :=
  tiered_cost_matches_spec_formula 600 [⟨0, 500, 5⟩, ⟨500, 1500, 19/5⟩] (by norm_num)

/-- C2: `total_cost` is `max(calculated_cost, minimum_billing)`, hence always at
least `minimum_billing`; and in a concrete run with `calculated_cost = 1000`
and `minimum_billing = 1500` the floor adjustment `total_cost - calculated_cost`
is `500`. -/
theorem total_cost_is_max_with_minimum_billing (total_leads : ℚ) (rates : FunnelRates)
    (tables : PricingTables) (minimum_billing : ℚ) :
    (run_simulation total_leads rates tables minimum_billing).total_cost
        = max (run_simulation total_leads rates tables minimum_billing).calculated_cost
            minimum_billing ∧
    minimum_billing ≤ (run_simulation total_leads rates tables minimum_billing).total_cost ∧
    ((run_simulation 1000 ⟨0, 0, 0⟩ ⟨1, [], [], []⟩ 1500).calculated_cost = 1000 ∧
      (run_simulation 1000 ⟨0, 0, 0⟩ ⟨1, [], [], []⟩ 1500).total_cost = 1500 ∧
      (run_simulation 1000 ⟨0, 0, 0⟩ ⟨1, [], [], []⟩ 1500).total_cost
          - (run_simulation 1000 ⟨0, 0, 0⟩ ⟨1, [], [], []⟩ 1500).calculated_cost = 500) := by
  refine ⟨rfl, le_max_right _ _, ?_, ?_, ?_⟩ <;>
    norm_num [run_simulation, calculate_tiered_cost]

/-- C3: the funnel counts are the exact (unrounded) products
`replies = total_leads * response`, `no_replies = total_leads - replies`,
`qualified = replies * qualification`, `booked = qualified * booking`; and at
`total_leads = 2500`, `response = 0.15`, `qualification = 0.25`,
`booking = 0.33` they are `375`, `93.75` and `30.9375`. -/
theorem funnel_propagation (total_leads : ℚ) (rates : FunnelRates)
    (tables : PricingTables) (minimum_billing : ℚ) :
    ((run_simulation total_leads rates tables minimum_billing).num_replies
        = total_leads * rates.response ∧
      (run_simulation total_leads rates tables minimum_billing).num_no_replies
        = total_leads
            - (run_simulation total_leads rates tables minimum_billing).num_replies ∧
      (run_simulation total_leads rates tables minimum_billing).num_qualified
        = (run_simulation total_leads rates tables minimum_billing).num_replies
            * rates.qualification ∧
      (run_simulation total_leads rates tables minimum_billing).num_booked
        = (run_simulation total_leads rates tables minimum_billing).num_qualified
            * rates.booking) ∧
    ((run_simulation 2500 ⟨3/20, 1/4, 33/100⟩ tables minimum_billing).num_replies = 375 ∧
      (run_simulation 2500 ⟨3/20, 1/4, 33/100⟩ tables minimum_billing).num_qualified
        = 375/4 ∧
      (run_simulation 2500 ⟨3/20, 1/4, 33/100⟩ tables minimum_billing).num_booked
        = 495/16) := by
  refine ⟨⟨rfl, rfl, rfl, rfl⟩, ?_, ?_, ?_⟩ <;> norm_num [run_simulation]

theorem tieredLoop_eq_zero (q : ℚ) (l : List Tier) (h : ∀ t ∈ l, ¬ t.min < q) :
    tieredLoop q l = 0 := by
  induction l with
  | nil => rfl
  | cons t rest ih =>
    rw [tieredLoop, tierContribution, if_neg (h t (List.mem_cons_self t rest)), zero_add]
    exact ih fun u hu => h u (List.mem_cons_of_mem t hu)

theorem tierContribution_nonneg (q : ℚ) (t : Tier) (hlt : t.min < t.max)
    (hp : 0 ≤ t.price) : 0 ≤ tierContribution q t := by
  rw [tierContribution]
  split
  · next h =>
    exact mul_nonneg (by rw [sub_nonneg]; exact le_min (le_of_lt h) (le_of_lt hlt)) hp
  · exact le_refl 0

theorem tierContribution_mono (q1 q2 : ℚ) (t : Tier) (hlt : t.min < t.max)
    (hp : 0 ≤ t.price) (hq : q1 ≤ q2) :
    tierContribution q1 t ≤ tierContribution q2 t := by
  by_cases h1 : t.min < q1
  · rw [tierContribution, tierContribution, if_pos h1, if_pos (lt_of_lt_of_le h1 hq)]
    exact mul_le_mul_of_nonneg_right (sub_le_sub_right (min_le_min hq le_rfl) t.min) hp
  · calc tierContribution q1 t = 0 := by rw [tierContribution, if_neg h1]
    _ ≤ tierContribution q2 t := tierContribution_nonneg q2 t hlt hp

/-- The `cpl` field of the simulation result, as the source computes it. -/
theorem run_simulation_cpl (total_leads : ℚ) (rates : FunnelRates)
    (tables : PricingTables) (minimum_billing : ℚ) :
    (run_simulation total_leads rates tables minimum_billing).cpl
      = if 0 < total_leads then
          (run_simulation total_leads rates tables minimum_billing).total_cost
            / total_leads
        else 0 := rfl

/-- The `cpa` field of the simulation result, as the source computes it. -/
theorem run_simulation_cpa (total_leads : ℚ) (rates : FunnelRates)
    (tables : PricingTables) (minimum_billing : ℚ) :
    (run_simulation total_leads rates tables minimum_billing).cpa
      = if 0 < (run_simulation total_leads rates tables minimum_billing).num_booked then
          (run_simulation total_leads rates tables minimum_billing).total_cost
            / (run_simulation total_leads rates tables minimum_billing).num_booked
        else 0 := rfl

end ArcoPrices

namespace ArcoPrices

/-- C4 counterexample: the source rejects nothing. A negative quantity is
evaluated without error (the claimed `InvalidInput` does not exist): quantity
`-5` against the valid tier `[0,500)@5` silently yields `0`. A tier with
`min ≥ max` is accepted without error (the claimed `InvalidTable` does not
exist): quantity `600` against the single tier `min=500, max=300, price=2`
yields `(min(600,300) - 500) * 2 = -400`, a silently produced negative cost. -/
theorem no_input_validation_cex :
    calculate_tiered_cost (-5) [⟨0, 500, 5⟩] = 0 ∧
    calculate_tiered_cost 600 [⟨500, 300, 2⟩] = -400 := by
  constructor <;>
    norm_num [calculate_tiered_cost, sortTiers, tieredLoop, tierContribution,
      List.insertionSort, List.orderedInsert, min_def]

/-- C4 (amended): `calculate_tiered_cost` performs no validation. A negative
quantity is not rejected: whenever every tier's `min` is non-negative the
evaluation silently returns `0`. A tier with `min ≥ max` is not rejected
either: it is accumulated like any other tier, e.g. the tier
`min=500, max=300, price=2` at quantity `600` contributes `-400`. -/
theorem no_input_validation (q : ℚ) (tiers : List Tier)
    (hq : q < 0) (hmins : ∀ t ∈ tiers, 0 ≤ t.min) :
    calculate_tiered_cost q tiers = 0 ∧
    calculate_tiered_cost 600 [⟨500, 300, 2⟩] = -400 := by
  constructor
  · rw [calculate_tiered_cost, if_neg (ne_of_lt hq)]
    apply tieredLoop_eq_zero
    intro t ht
    have hmem : t ∈ tiers := (sortTiers_perm tiers).mem_iff.mp ht
    exact not_lt.mpr (le_trans (le_of_lt hq) (hmins t hmem))
  · norm_num [calculate_tiered_cost, sortTiers, tieredLoop, tierContribution,
      List.insertionSort, List.orderedInsert, min_def]

/-- Witness for the amended C4 at `q = -5` on the tier `[0,500)@5`. -/
theorem no_input_validation_witness :
    calculate_tiered_cost (-5) [⟨0, 500, 5⟩] = 0 ∧
    calculate_tiered_cost 600 [⟨500, 300, 2⟩] = -400 :=
  no_input_validation (-5) [⟨0, 500, 5⟩] (by norm_num)
    (fun t ht => by rw [List.mem_singleton.mp ht])

/-- C6 counterexample: for the table whose single (hence first-after-sorting)
tier is `min=100, max=500, price=5` and quantity `50 ≤ 500 = tier[0].max`,
evaluation returns `0`, not `50 * 5 = 250`: the claimed identity
`evaluate(q) = q * tier[0].unit_price` fails whenever the first tier's `min`
exceeds the quantity. -/
theorem first_tier_linear_cex :
    sortTiers [⟨100, 500, 5⟩] = [⟨100, 500, 5⟩] ∧
    (50 : ℚ) ≤ 500 ∧
    calculate_tiered_cost 50 [⟨100, 500, 5⟩] = 0 ∧
    calculate_tiered_cost 50 [⟨100, 500, 5⟩] ≠ 50 * 5 := by
  refine ⟨rfl, by norm_num, ?_, ?_⟩ <;>
    norm_num [calculate_tiered_cost, sortTiers, tieredLoop, tierContribution,
      List.insertionSort, List.orderedInsert]

/-- C6 (amended): if the first tier after sorting has `min = 0`, every later
tier's `min` is at least the first tier's `max`, and `0 ≤ q ≤ tier[0].max`,
then `calculate_tiered_cost` returns exactly `q * tier[0].unit_price`. -/
theorem first_tier_linear (q : ℚ) (tiers : List Tier) (t0 : Tier) (rest : List Tier)
    (hs : sortTiers tiers = t0 :: rest) (h0 : t0.min = 0)
    (hrest : ∀ t ∈ rest, t0.max ≤ t.min) (hq0 : 0 ≤ q) (hqmax : q ≤ t0.max) :
    calculate_tiered_cost q tiers = q * t0.price := by
  rcases eq_or_lt_of_le hq0 with h | h
  · rw [calculate_tiered_cost, if_pos h.symm, ← h, zero_mul]
  · rw [calculate_tiered_cost, if_neg (ne_of_gt h), hs, tieredLoop]
    have hrest0 : tieredLoop q rest = 0 :=
      tieredLoop_eq_zero q rest fun t ht => not_lt.mpr (le_trans hqmax (hrest t ht))
    rw [hrest0, add_zero, tierContribution, if_pos (by rw [h0]; exact h), h0,
      sub_zero, min_eq_left hqmax]

/-- Witness for the amended C6: the unsorted two-tier table
`[500,1500)@3.80, [0,500)@5` at `q = 300` costs `300 * 5`. -/
theorem first_tier_linear_witness :
    calculate_tiered_cost 300 [⟨500, 1500, 19/5⟩, ⟨0, 500, 5⟩] = 300 * 5 :=
  first_tier_linear 300 [⟨500, 1500, 19/5⟩, ⟨0, 500, 5⟩] ⟨0, 500, 5⟩
    [⟨500, 1500, 19/5⟩]
    (by norm_num [sortTiers, List.insertionSort, List.orderedInsert])
    rfl
    (fun t ht => by rw [List.mem_singleton.mp ht])
    (by norm_num) (by norm_num)

/-- C7: on a table every tier of which satisfies the Tier invariant
(`min < max`, non-negative price), the evaluation is monotone in the quantity:
`0 ≤ q1 < q2` implies `evaluate(q1) ≤ evaluate(q2)`. -/
theorem tiered_cost_monotone (tiers : List Tier) (q1 q2 : ℚ)
    (hvalid : ∀ t ∈ tiers, t.min < t.max ∧ 0 ≤ t.price)
    (hq1 : 0 ≤ q1) (hq12 : q1 < q2) :
    calculate_tiered_cost q1 tiers ≤ calculate_tiered_cost q2 tiers := by
  have hq2 : (0 : ℚ) < q2 := lt_of_le_of_lt hq1 hq12
  rw [calculate_tiered_cost_eq_sum q2 tiers (ne_of_gt hq2)]
  rcases eq_or_lt_of_le hq1 with h | h
  · rw [calculate_tiered_cost, if_pos h.symm]
    apply List.sum_nonneg
    intro x hx
    obtain ⟨t, ht, rfl⟩ := List.mem_map.mp hx
    exact tierContribution_nonneg q2 t (hvalid t ht).1 (hvalid t ht).2
  · rw [calculate_tiered_cost_eq_sum q1 tiers (ne_of_gt h)]
    apply List.sum_le_sum
    intro t ht
    exact tierContribution_mono q1 q2 t (hvalid t ht).1 (hvalid t ht).2 (le_of_lt hq12)

/-- Witness for C7 on scenario A's table at `q1 = 100 < q2 = 200`. -/
theorem tiered_cost_monotone_witness :
    calculate_tiered_cost 100 [⟨0, 500, 5⟩, ⟨500, 1500, 19/5⟩]
      ≤ calculate_tiered_cost 200 [⟨0, 500, 5⟩, ⟨500, 1500, 19/5⟩] :=
  tiered_cost_monotone [⟨0, 500, 5⟩, ⟨500, 1500, 19/5⟩] 100 200
    (by intro t ht; fin_cases ht <;> norm_num) (by norm_num) (by norm_num)

/-- C8: `cpl` is `total_cost / total_leads` when `total_leads > 0` and `0` when
`total_leads = 0`; `cpa` is `total_cost / booked` when `booked > 0` and `0`
otherwise; the division is the real quotient (multiplying back recovers
`total_cost`), and the zero-denominator case is an ordinary defined value, not
an error. -/
theorem derived_metrics_division_contract (total_leads : ℚ) (rates : FunnelRates)
    (tables : PricingTables) (minimum_billing : ℚ) :
    (0 < total_leads →
      (run_simulation total_leads rates tables minimum_billing).cpl
          = (run_simulation total_leads rates tables minimum_billing).total_cost
              / total_leads ∧
      (run_simulation total_leads rates tables minimum_billing).cpl * total_leads
          = (run_simulation total_leads rates tables minimum_billing).total_cost) ∧
    (total_leads = 0 →
      (run_simulation total_leads rates tables minimum_billing).cpl = 0) ∧
    (0 < (run_simulation total_leads rates tables minimum_billing).num_booked →
      (run_simulation total_leads rates tables minimum_billing).cpa
          = (run_simulation total_leads rates tables minimum_billing).total_cost
              / (run_simulation total_leads rates tables minimum_billing).num_booked ∧
      (run_simulation total_leads rates tables minimum_billing).cpa
            * (run_simulation total_leads rates tables minimum_billing).num_booked
          = (run_simulation total_leads rates tables minimum_billing).total_cost) ∧
    (¬ 0 < (run_simulation total_leads rates tables minimum_billing).num_booked →
      (run_simulation total_leads rates tables minimum_billing).cpa = 0) := by
  refine ⟨?_, ?_, ?_, ?_⟩
  · intro h
    have hc : (run_simulation total_leads rates tables minimum_billing).cpl
        = (run_simulation total_leads rates tables minimum_billing).total_cost
            / total_leads := by
      rw [run_simulation_cpl, if_pos h]
    exact ⟨hc, by rw [hc]; exact div_mul_cancel₀ _ (ne_of_gt h)⟩
  · intro h
    rw [run_simulation_cpl, if_neg (by rw [h]; exact lt_irrefl 0)]
  · intro h
    have hc : (run_simulation total_leads rates tables minimum_billing).cpa
        = (run_simulation total_leads rates tables minimum_billing).total_cost
            / (run_simulation total_leads rates tables minimum_billing).num_booked := by
      rw [run_simulation_cpa, if_pos h]
    exact ⟨hc, by rw [hc]; exact div_mul_cancel₀ _ (ne_of_gt h)⟩
  · intro h
    rw [run_simulation_cpa, if_neg h]

/-- Witness for C8 at scenario B's config (positive leads and bookings) and at
`total_leads = 0` (both guard branches are exercised). -/
theorem derived_metrics_division_contract_witness :
    (run_simulation 2500 ⟨3/20, 1/4, 33/100⟩ ⟨1/5, [], [], []⟩ 0).cpl * 2500
        = (run_simulation 2500 ⟨3/20, 1/4, 33/100⟩ ⟨1/5, [], [], []⟩ 0).total_cost ∧
    (run_simulation 0 ⟨3/20, 1/4, 33/100⟩ ⟨1/5, [], [], []⟩ 0).cpl = 0 :=
  ⟨((derived_metrics_division_contract 2500 ⟨3/20, 1/4, 33/100⟩ ⟨1/5, [], [], []⟩ 0).1
      (by norm_num)).2,
    (derived_metrics_division_contract 0 ⟨3/20, 1/4, 33/100⟩ ⟨1/5, [], [], []⟩ 0).2.1 rfl⟩

/-- C10: at `total_leads = 0` every funnel count and every stage cost is `0`,
`calculated_cost = 0`, `total_cost` is the minimum billing `m` (for `m ≥ 0`),
and both derived metrics are `0`. -/
theorem zero_leads_simulation (rates : FunnelRates) (tables : PricingTables)
    (m : ℚ) (hm : 0 ≤ m) :
    (run_simulation 0 rates tables m).num_replies = 0 ∧
    (run_simulation 0 rates tables m).num_no_replies = 0 ∧
    (run_simulation 0 rates tables m).num_qualified = 0 ∧
    (run_simulation 0 rates tables m).num_booked = 0 ∧
    (run_simulation 0 rates tables m).cost_no_reply = 0 ∧
    (run_simulation 0 rates tables m).cost_replies = 0 ∧
    (run_simulation 0 rates tables m).cost_qualified = 0 ∧
    (run_simulation 0 rates tables m).cost_booked = 0 ∧
    (run_simulation 0 rates tables m).calculated_cost = 0 ∧
    (run_simulation 0 rates tables m).total_cost = m ∧
    (run_simulation 0 rates tables m).cpl = 0 ∧
    (run_simulation 0 rates tables m).cpa = 0 := by
  simp [run_simulation, calculate_tiered_cost, max_eq_right hm]

/-- Witness for C10 at the reference rates with `minimum_billing = 1500`. -/
theorem zero_leads_simulation_witness :
    (run_simulation 0 ⟨3/20, 1/4, 33/100⟩ ⟨1/5, [], [], []⟩ 1500).calculated_cost = 0 ∧
    (run_simulation 0 ⟨3/20, 1/4, 33/100⟩ ⟨1/5, [], [], []⟩ 1500).total_cost = 1500 ∧
    (run_simulation 0 ⟨3/20, 1/4, 33/100⟩ ⟨1/5, [], [], []⟩ 1500).cpl = 0 ∧
    (run_simulation 0 ⟨3/20, 1/4, 33/100⟩ ⟨1/5, [], [], []⟩ 1500).cpa = 0 := by
  have h := zero_leads_simulation ⟨3/20, 1/4, 33/100⟩ ⟨1/5, [], [], []⟩ 1500 (by norm_num)
  exact ⟨h.2.2.2.2.2.2.2.2.1, h.2.2.2.2.2.2.2.2.2.1, h.2.2.2.2.2.2.2.2.2.2.1,
    h.2.2.2.2.2.2.2.2.2.2.2⟩

theorem calculate_tiered_cost_df_rows (q : ℚ) (df : TiersDf) :
    ((calculate_tiered_cost_df q df).2).rows = df.rows := by
  by_cases h : q = 0 <;> simp [calculate_tiered_cost_df, astypeFloatCols, h]

theorem calculate_tiered_cost_df_fst (q : ℚ) (df : TiersDf) :
    (calculate_tiered_cost_df q df).1 = calculate_tiered_cost q df.rows := by
  by_cases h : q = 0 <;>
    simp [calculate_tiered_cost_df, calculate_tiered_cost, astypeFloatCols, h]

end ArcoPrices

namespace ArcoPrices

/-- C5 counterexample: the engine does mutate the caller's tables in place.
With a freshly constructed int64-column DataFrame holding the single tier
`[0,500)@5`, the call `calculate_tiered_cost(600, df)` leaves the caller's
DataFrame different from what was passed in (its three columns have been
re-assigned cast to float64), and `run_simulation` over such tables likewise
hands the caller back a changed `pricing_tables` dict. -/
theorem engine_mutates_caller_tables_cex :
    (calculate_tiered_cost_df 600 ⟨[⟨0, 500, 5⟩], false, false, false⟩).2
        ≠ ⟨[⟨0, 500, 5⟩], false, false, false⟩ ∧
    (run_simulation_df 2500 ⟨3/20, 1/4, 33/100⟩
          ⟨1/5, ⟨[⟨0, 500, 5⟩], false, false, false⟩,
            ⟨[⟨0, 50, 20⟩], false, false, false⟩,
            ⟨[⟨0, 20, 100⟩], false, false, false⟩⟩ 0).2
        ≠ ⟨1/5, ⟨[⟨0, 500, 5⟩], false, false, false⟩,
            ⟨[⟨0, 50, 20⟩], false, false, false⟩,
            ⟨[⟨0, 20, 100⟩], false, false, false⟩⟩ := by
  constructor
  · intro h
    have hflag := congrArg TiersDf.minIsFloat h
    norm_num [calculate_tiered_cost_df, astypeFloatCols] at hflag
  · intro h
    have hflag := congrArg (fun t => t.leads.minIsFloat) h
    norm_num [run_simulation_df, calculate_tiered_cost_df, astypeFloatCols] at hflag

/-- C5 (amended): the engine never changes the numeric contents of the
caller's configuration — every table's rows (values and order) are returned
exactly as passed, and all computed results depend only on them — but
`calculate_tiered_cost` does mutate the caller's tier DataFrame in place
whenever the quantity is nonzero: its three `astype(float)` column
re-assignments change the frame's column dtypes, and `run_simulation` applies
those same in-place casts to the tables it is given; the local
`sort_values(...)` rebinding leaves the caller's row order untouched. -/
theorem engine_preserves_table_values (q : ℚ) (df : TiersDf) (total_leads : ℚ)
    (rates : FunnelRates) (tables : PricingTablesDf) (minimum_billing : ℚ) :
    ((calculate_tiered_cost_df q df).2).rows = df.rows ∧
    (calculate_tiered_cost_df q df).1 = calculate_tiered_cost q df.rows ∧
    ((run_simulation_df total_leads rates tables minimum_billing).2).no_reply
        = tables.no_reply ∧
    ((run_simulation_df total_leads rates tables minimum_billing).2).leads.rows
        = tables.leads.rows ∧
    ((run_simulation_df total_leads rates tables minimum_billing).2).qualified.rows
        = tables.qualified.rows ∧
    ((run_simulation_df total_leads rates tables minimum_billing).2).booked.rows
        = tables.booked.rows ∧
    (run_simulation_df total_leads rates tables minimum_billing).1
        = run_simulation total_leads rates (plainTables tables) minimum_billing := by
  refine ⟨calculate_tiered_cost_df_rows q df, calculate_tiered_cost_df_fst q df,
    rfl, calculate_tiered_cost_df_rows _ _, calculate_tiered_cost_df_rows _ _,
    calculate_tiered_cost_df_rows _ _, ?_⟩
  simp [run_simulation_df, run_simulation, plainTables, calculate_tiered_cost_df_fst]

end ArcoPrices

namespace ArcoPrices

theorem getElem!_map_list {α β : Type} [Inhabited α] [Inhabited β]
    (f : α → β) (l : List α) (i : ℕ) (hi : i < l.length) :
    (l.map f)[i]! = f l[i]! := by
  rw [getElem!_pos (l.map f) i (by simpa using hi), getElem!_pos l i hi, List.getElem_map]

theorem qual_rates_heatmap_eq :
    qual_rates_heatmap = [0, 1/20, 1/10, 3/20, 1/5, 1/4, 3/10, 7/20] := by
  norm_num [qual_rates_heatmap, List.range']

theorem booking_rates_heatmap_eq :
    booking_rates_heatmap
      = [0, 1/20, 1/10, 3/20, 1/5, 1/4, 3/10, 7/20, 2/5, 9/20, 1/2] := by
  norm_num [booking_rates_heatmap, List.range']

theorem heat_matrix_cell (f : ℚ → ℚ → ℚ) (i j : ℕ)
    (hi : i < qual_rates_heatmap.length) (hj : j < booking_rates_heatmap.length) :
    ((qual_rates_heatmap.map (fun q => booking_rates_heatmap.map (fun b => f q b)))[i]!)[j]!
      = f qual_rates_heatmap[i]! booking_rates_heatmap[j]! := by
  rw [getElem!_map_list _ _ i hi]
  exact getElem!_map_list _ _ j hj

theorem heat_matrix_row_length (f : ℚ → ℚ → ℚ) (i : ℕ)
    (hi : i < qual_rates_heatmap.length) :
    ((qual_rates_heatmap.map (fun q => booking_rates_heatmap.map (fun b => f q b)))[i]!).length
      = booking_rates_heatmap.length := by
  rw [getElem!_map_list _ _ i hi, List.length_map]

/-- C9: the heatmap sweep's axes are the ascending lists `0%..35%` step `5%`
(qualification) and `0%..50%` step `5%` (booking); the three matrices are
`8 × 11` and parallel; and cell `(i, j)` of each is respectively the
`total_cost`, the guarded `cpa` (`0` whenever there are no bookings), and the
`num_booked` of one `run_simulation` at the fixed lead volume with a copy of
the base rates whose `qualification` and `booking` fields are replaced by the
`i`-th and `j`-th axis values. -/
theorem grid_sweep_matrices (target_total_leads : ℚ) (rates : FunnelRates)
    (tables : PricingTables) (minimum_billing : ℚ) (i j : ℕ)
    (hi : i < 8) (hj : j < 11) :
    qual_rates_heatmap.length = 8 ∧
    booking_rates_heatmap.length = 11 ∧
    List.Chain' (· < ·) qual_rates_heatmap ∧
    List.Chain' (· < ·) booking_rates_heatmap ∧
    (cost_matrix target_total_leads rates tables minimum_billing).length = 8 ∧
    (cpa_matrix target_total_leads rates tables minimum_billing).length = 8 ∧
    (meetings_matrix target_total_leads rates tables minimum_billing).length = 8 ∧
    ((cost_matrix target_total_leads rates tables minimum_billing)[i]!).length = 11 ∧
    ((cpa_matrix target_total_leads rates tables minimum_billing)[i]!).length = 11 ∧
    ((meetings_matrix target_total_leads rates tables minimum_billing)[i]!).length = 11 ∧
    ((cost_matrix target_total_leads rates tables minimum_billing)[i]!)[j]!
        = (run_simulation target_total_leads
            (tempRates rates qual_rates_heatmap[i]! booking_rates_heatmap[j]!)
            tables minimum_billing).total_cost ∧
    ((cpa_matrix target_total_leads rates tables minimum_billing)[i]!)[j]!
        = (if 0 < (run_simulation target_total_leads
                (tempRates rates qual_rates_heatmap[i]! booking_rates_heatmap[j]!)
                tables minimum_billing).cpa
           then (run_simulation target_total_leads
                (tempRates rates qual_rates_heatmap[i]! booking_rates_heatmap[j]!)
                tables minimum_billing).cpa
           else 0) ∧
    ((run_simulation target_total_leads
          (tempRates rates qual_rates_heatmap[i]! booking_rates_heatmap[j]!)
          tables minimum_billing).num_booked = 0 →
      ((cpa_matrix target_total_leads rates tables minimum_billing)[i]!)[j]! = 0) ∧
    ((meetings_matrix target_total_leads rates tables minimum_billing)[i]!)[j]!
        = (run_simulation target_total_leads
            (tempRates rates qual_rates_heatmap[i]! booking_rates_heatmap[j]!)
            tables minimum_billing).num_booked := by
  have hq8 : qual_rates_heatmap.length = 8 := by rw [qual_rates_heatmap_eq]; rfl
  have hb11 : booking_rates_heatmap.length = 11 := by rw [booking_rates_heatmap_eq]; rfl
  have hiq : i < qual_rates_heatmap.length := by rw [hq8]; exact hi
  have hjb : j < booking_rates_heatmap.length := by rw [hb11]; exact hj
  have hcost :
      ((cost_matrix target_total_leads rates tables minimum_billing)[i]!)[j]!
        = (run_simulation target_total_leads
            (tempRates rates qual_rates_heatmap[i]! booking_rates_heatmap[j]!)
            tables minimum_billing).total_cost :=
    heat_matrix_cell
      (fun q b => (run_simulation target_total_leads (tempRates rates q b)
        tables minimum_billing).total_cost) i j hiq hjb
  have hcpa :
      ((cpa_matrix target_total_leads rates tables minimum_billing)[i]!)[j]!
        = (if 0 < (run_simulation target_total_leads
                (tempRates rates qual_rates_heatmap[i]! booking_rates_heatmap[j]!)
                tables minimum_billing).cpa
           then (run_simulation target_total_leads
                (tempRates rates qual_rates_heatmap[i]! booking_rates_heatmap[j]!)
                tables minimum_billing).cpa
           else 0) :=
    heat_matrix_cell
      (fun q b =>
        if 0 < (run_simulation target_total_leads (tempRates rates q b)
            tables minimum_billing).cpa
        then (run_simulation target_total_leads (tempRates rates q b)
            tables minimum_billing).cpa
        else 0) i j hiq hjb
  have hmeet :
      ((meetings_matrix target_total_leads rates tables minimum_billing)[i]!)[j]!
        = (run_simulation target_total_leads
            (tempRates rates qual_rates_heatmap[i]! booking_rates_heatmap[j]!)
            tables minimum_billing).num_booked :=
    heat_matrix_cell
      (fun q b => (run_simulation target_total_leads (tempRates rates q b)
        tables minimum_billing).num_booked) i j hiq hjb
  refine ⟨hq8, hb11, ?_, ?_,
    by rw [cost_matrix, List.length_map, hq8],
    by rw [cpa_matrix, List.length_map, hq8],
    by rw [meetings_matrix, List.length_map, hq8],
    by rw [cost_matrix]; rw [heat_matrix_row_length _ i hiq, hb11],
    by rw [cpa_matrix]; rw [heat_matrix_row_length _ i hiq, hb11],
    by rw [meetings_matrix]; rw [heat_matrix_row_length _ i hiq, hb11],
    hcost, hcpa, ?_, hmeet⟩
  · rw [qual_rates_heatmap_eq]; norm_num [List.chain'_cons]
  · rw [booking_rates_heatmap_eq]; norm_num [List.chain'_cons]
  · intro hb0
    rw [hcpa, run_simulation_cpa, hb0, if_neg (lt_irrefl 0), if_neg (lt_irrefl 0)]

/-- Witness for C9 at the reference config, cell `(i, j) = (5, 7)`
(qualification 25%, booking 35%). -/
theorem grid_sweep_matrices_witness :
    ((cost_matrix 2500 ⟨3/20, 1/4, 33/100⟩ ⟨1/5, [], [], []⟩ 0)[5]!)[7]!
        = (run_simulation 2500
            (tempRates ⟨3/20, 1/4, 33/100⟩ qual_rates_heatmap[5]! booking_rates_heatmap[7]!)
            ⟨1/5, [], [], []⟩ 0).total_cost ∧
    ((meetings_matrix 2500 ⟨3/20, 1/4, 33/100⟩ ⟨1/5, [], [], []⟩ 0)[5]!)[7]!
        = (run_simulation 2500
            (tempRates ⟨3/20, 1/4, 33/100⟩ qual_rates_heatmap[5]! booking_rates_heatmap[7]!)
            ⟨1/5, [], [], []⟩ 0).num_booked :=
  ⟨(grid_sweep_matrices 2500 ⟨3/20, 1/4, 33/100⟩ ⟨1/5, [], [], []⟩ 0 5 7
      (by norm_num) (by norm_num)).2.2.2.2.2.2.2.2.2.2.1,
    (grid_sweep_matrices 2500 ⟨3/20, 1/4, 33/100⟩ ⟨1/5, [], [], []⟩ 0 5 7
      (by norm_num) (by norm_num)).2.2.2.2.2.2.2.2.2.2.2.2.2⟩

end ArcoPrices
